import Mathlib

/-!
Verification development for the rehive `adapter-django-stellar` payment
adapter.  The Python sources (`src/adapter/api.py`,
`src/adapter/stellar_federation.py`, `src/adapter/models.py`) are shallowly
embedded below: pure fragments become Lean functions, the Django ORM stores
become explicit lists threaded through the functions, network calls become
parameters of an environment record, and raised Python exceptions become
`Except` errors.
-/

/-! ### Receive discovery: `Interface._get_receives` (api.py lines 110-126)

A raw payment record as returned by `self.address.payments()`.  Only the
fields inspected by the filter are modelled: `tx.get('to')` and
`tx.get('from')`, each absent-able, hence `Option String`. -/

structure PaymentRec where
  toAcct : Option String
  fromAcct : Option String
deriving DecidableEq

/-- Model of the CPython loop
`for i, tx in enumerate(transactions): if cond(tx): transactions.pop(i)`.
The list iterator keeps an index into the (mutating) list: each step reads
the element at index `i` if one exists, possibly removes it in place, and
then advances `i` by one regardless, so the element shifted into position
`i` after a `pop` is never examined.  `fuel` bounds the number of steps;
since `i` grows by one per step and the loop stops as soon as `i` reaches
the current length, `fuel = l.length` at the initial call (with `i = 0`)
always suffices: `fuel + i` stays equal to the initial length, so when
`fuel` hits `0`, `i` equals the initial length, which is at least the
current length, and the loop would stop anyway. -/
def popFilterAux (cond : PaymentRec → Bool) :
    Nat → List PaymentRec → Nat → List PaymentRec
  | 0, l, _ => l
  | fuel + 1, l, i =>
    if h : i < l.length then
      if cond (l.get ⟨i, h⟩) then popFilterAux cond fuel (l.eraseIdx i) (i + 1)
      else popFilterAux cond fuel l (i + 1)
    else l

/-- The in-place filtering loop of `_get_receives`, started at index 0. -/
def popFilter (cond : PaymentRec → Bool) (l : List PaymentRec) : List PaymentRec :=
  popFilterAux cond l.length l 0

/-- Python truthiness of the `cursor` argument (`if cursor:` at line 112):
`None` and `0` are falsy. -/
def cursorTruthy : Option Nat → Bool
  | none => false
  | some c => c != 0

/-- `Interface._get_receives` (api.py lines 110-126).  The list of raw
records returned by the network for the poll cycle is an input;
`accountId` is `self.account.account_id`.  With a truthy cursor the loop
pops records whose `to` differs from the custodial account; otherwise it
pops records whose `from` equals the custodial account.  Both branches
mutate the list while iterating over it (`transactions.pop(i)`), which is
modelled faithfully by `popFilter`. -/
def get_receives (accountId : String) (cursor : Option Nat)
    (records : List PaymentRec) : List PaymentRec :=
  if cursorTruthy cursor then
    popFilter (fun tx => tx.toAcct != some accountId) records
  else
    popFilter (fun tx => tx.fromAcct == some accountId) records

/-! ### Federation client: `get_federation_details` (stellar_federation.py lines 21-30)

Python `str.split(sep)` for a one-character separator, on the character
list of the string.  `"".split(sep) == ['']`, matching `pySplit sep [] = [[]]`. -/

def pySplit (sep : Char) : List Char → List (List Char)
  | [] => [[]]
  | c :: rest =>
    if c = sep then [] :: pySplit sep rest
    else
      match pySplit sep rest with
      | [] => [[c]]
      | g :: gs => (c :: g) :: gs

/-- Error surface of `get_federation_details`:
`invalidAddress` models `raise TypeError('Invalid federation address')`
(line 23); `valueError` models the `ValueError` raised by the tuple
unpacking `user_id, domain = address.split('*')` when the split yields
more than two parts (line 24). -/
inductive FedErr where
  | invalidAddress
  | valueError
deriving DecidableEq

/-- The address-validation prefix of `get_federation_details`
(stellar_federation.py lines 21-24): checks `'*' not in address`, then
unpacks `address.split('*')` into `user_id, domain`.  On success the
function proceeds to the descriptor fetch with the unpacked pair; the
network part (lines 25-30) is outside the embedded fragment, so success is
represented by returning the pair the fetch would use. -/
def get_federation_details (address : String) : Except FedErr (String × String) :=
  if (address.data.contains '*') = false then
    .error .invalidAddress
  else
    match pySplit '*' address.data with
    | [u, d] => .ok (String.mk u, String.mk d)
    | _ => .error .valueError

/-! ### Federation server: `StellarFederationView.get` (stellar_federation.py lines 52-68) -/

/-- Python `address.split('*')[0]` (line 62): the part of the string
before the first `*`, or the whole string when no `*` occurs. -/
def beforeStar (q : String) : String :=
  String.mk ((pySplit '*' q.data).headD [])

/-- Responses of the view: `Response(OrderedDict([...]))` on success,
`ValidationError` / `ParseError` / `NotImplementedAPIError` otherwise. -/
inductive FedResponse where
  | ok (stellar_address account_id memo_type memo : String)
  | validationError (detail : String)
  | parseError (detail : String)
  | notImplemented
deriving DecidableEq

/-- `StellarFederationView.get` (stellar_federation.py lines 52-68).
`userAccountIds` models the `account_id` column of the `UserAccount`
table, so `UserAccount.objects.filter(account_id=account_id)` is truthy
iff the list contains the queried id.  `receiveAddress` models
`settings.STELLAR_RECEIVE_ADDRESS`.  `qtype` and `q` are the query
parameters, absent-able; Python `if address:` is falsy on `None` and on
the empty string. -/
def stellarFederationGet (userAccountIds : List String) (receiveAddress : String)
    (qtype : Option String) (q : Option String) : FedResponse :=
  if qtype = some "name" then
    match q with
    | some address =>
      if address = "" then .parseError "Invalid query parameter provided."
      else if userAccountIds.contains address then
        .ok address receiveAddress "text" (beforeStar address)
      else .validationError "Stellar address does not exist."
    | none => .parseError "Invalid query parameter provided."
  else .notImplemented

/-! ### Outbound sends: `Interface.send` (api.py lines 182-219) -/

/-- Result of `Address(account_id).get()` against the network:
either the account exists (`ok`) or the call raises
`stellar_base.exceptions.APIException` with an HTTP status code. -/
inductive GetOutcome where
  | ok
  | apiError (status : Nat)
deriving DecidableEq

/-- Result of `builder.sign(); builder.submit()`: success, or an
exception carrying a diagnostic `payload` (as `APIException` from
`stellar_base` does). -/
inductive SubmitOutcome where
  | ok
  | failure (payload : String)
deriving DecidableEq

/-- A federation lookup response as consumed by `Interface.send`
(fields `account_id`, `memo_type`, `memo` of the JSON body). -/
structure FederationDetails where
  account_id : String
  memo_type : String
  memo : String
deriving DecidableEq

/-- The environment of one `Interface.send` call: `selfAccountId` is
`self.account.account_id` (the custodial account; `self.address` is
`Address(address=account.account_id)`, api.py line 92), `getOutcome a`
the network answer to `Address(a).get()`, `federation r` the resolution
`get_federation_details(r)` returns for a federated recipient, and
`submitOutcome` the result of signing and submitting the built
transaction. -/
structure SendEnv where
  selfAccountId : String
  getOutcome : String → GetOutcome
  federation : String → FederationDetails
  submitOutcome : SubmitOutcome

/-- A memo attached to the builder (`add_text_memo` / `add_id_memo` /
`add_hash_memo`, api.py lines 188-192). -/
inductive Memo where
  | text (m : String)
  | idMemo (m : String)
  | hash (m : String)
deriving DecidableEq

/-- An operation appended to the builder: `append_payment_op(destination,
amount, code, issuer)` or `append_create_account_op(destination,
starting_balance)`. -/
inductive Op where
  | payment (destination : String) (amount : Int) (assetCode : String)
      (issuer : Option String)
  | createAccount (destination : String) (startingBalance : Int)
deriving DecidableEq

/-- The fields of a `SendTransaction` row read by `Interface.send`:
`tx.recipient`, `tx.amount`, `tx.asset.code`, `tx.issuer`.  The model
(models.py lines 64-90) defines no `currency` attribute, which matters
for the issued-asset branch below. -/
structure SendTx where
  recipient : String
  amount : Int
  assetCode : String
  issuer : String
deriving DecidableEq

/-- Exceptions `Interface.send` can raise: `unsupportedMemoType` models
`raise NotImplementedAPIError('Invalid memo type specified.')` (line 194);
`attributeError` models the `AttributeError` raised by evaluating
`tx.currency` (line 209), an attribute `SendTransaction` does not define. -/
inductive SendErr where
  | unsupportedMemoType
  | attributeError
deriving DecidableEq

/-- `Interface._is_valid_address` (api.py lines 166-171):
`len(address) == 56 and '*' not in address`. -/
def is_valid_address (address : String) : Bool :=
  address.length == 56 && !(address.data.contains '*')

/-- Recipient resolution, api.py lines 183-196: a valid raw address is
used directly with no memo; otherwise the federation resolution supplies
the destination and exactly one memo is attached according to
`memo_type`, any other `memo_type` raising `NotImplementedAPIError`. -/
def resolveRecipient (env : SendEnv) (recipient : String) :
    Except SendErr (String × List Memo) :=
  if is_valid_address recipient then .ok (recipient, [])
  else
    let fed := env.federation recipient
    if fed.memo_type = "text" then .ok (fed.account_id, [Memo.text fed.memo])
    else if fed.memo_type = "id" then .ok (fed.account_id, [Memo.idMemo fed.memo])
    else if fed.memo_type = "hash" then .ok (fed.account_id, [Memo.hash fed.memo])
    else .error .unsupportedMemoType

/-- Observable outcome of a completed `Interface.send` call: the memos
and operations accumulated on the builder, whether `sign(); submit()`
succeeded, and the payload printed (and thereby swallowed) by the
`except Exception as exc: print(exc.payload)` handler at lines 218-219
when submission failed.  The Python function returns `None` either way. -/
structure SendResult where
  memos : List Memo
  ops : List Op
  submitted : Bool
  printedPayload : Option String
deriving DecidableEq

/-- The operations appended by the native-asset branch of `Interface.send`
(api.py lines 199-206): the `try` block sets `address_obj = self.address`
and calls `address_obj.get()`, so the account queried is the custodial
account `env.selfAccountId`, not the resolved destination; on success a
payment operation is appended, on a 404 `APIException` a create-account
operation, and on any other `APIException` the handler falls through and
appends nothing. -/
def xlmOps (env : SendEnv) (address : String) (amount : Int) : List Op :=
  match env.getOutcome env.selfAccountId with
  | .ok => [Op.payment address amount "XLM" none]
  | .apiError status =>
    if status = 404 then [Op.createAccount address amount]
    else []

/-- `Interface.send` (api.py lines 182-219).  Notable faithful details:
the existence check of the `XLM` branch queries the custodial account
(see `xlmOps`); the issued-asset branch evaluates `tx.currency`
(line 209) and hence raises `AttributeError`; and a failure of
`sign(); submit()` is caught, its payload printed, and the call returns
normally. -/
def send (env : SendEnv) (tx : SendTx) : Except SendErr SendResult :=
  match resolveRecipient env tx.recipient with
  | .error e => .error e
  | .ok (address, memos) =>
    let opsE : Except SendErr (List Op) :=
      if tx.assetCode = "XLM" then .ok (xlmOps env address tx.amount)
      else .error .attributeError
    match opsE with
    | .error e => .error e
    | .ok ops =>
      match env.submitOutcome with
      | .ok => .ok ⟨memos, ops, true, none⟩
      | .failure p => .ok ⟨memos, ops, false, some p⟩

/-! ### Receive materialization: `Interface._process_receive` and
`Interface.process_receives` (api.py lines 128-163 and 174-180) -/

/-- A row of the `Asset` table (models.py lines 20-28).  `idx` is the
database primary key (auto-increment; rows are never deleted, so fresh
rows take `idx = ` current row count).  Empty strings model NULL/blank
`issuer` and `account_id` columns. -/
structure AssetRec where
  idx : Nat
  code : String
  issuer : String
  account_id : String
deriving DecidableEq

/-- The data `_process_receive` reads from one raw record and its fetched
transaction detail: the `memo` of the detail document (absent-able), and
the record fields `amount` (already converted to cents by `to_cents`,
whose numeric conversion is outside the embedded fragment), `asset_type`,
`asset_code`, `asset_issuer`, and `hash`. -/
structure RawReceive where
  memo : Option String
  amount : Int
  asset_type : String
  asset_code : String
  asset_issuer : String
  txHash : String
deriving DecidableEq

/-- Exceptions the materialization path can raise:
`userDoesNotExist` / `userMultipleReturned` model
`UserAccount.objects.get(account_id=...)` (api.py line 135) finding no
row resp. several rows; `assetDoesNotExist` / `assetMultipleReturned`
model `Asset.objects.get(account_id=..., code=...)` (line 145) and the
`get` inside `Asset.objects.get_or_create(code=...)` (line 148) finding
no row resp. several rows; `valueErrorAssetTuple` models the
`ValueError` Django raises at line 149: line 148 binds `asset` to the
`(object, created)` tuple `get_or_create` returns, and line 149 assigns
that tuple to the `asset` ForeignKey of the `ReceiveTransaction` being
created, which the ForeignKey descriptor rejects as a non-`Asset`
value.  The creation therefore raises on every record that reaches it. -/
inductive ReceiveErr where
  | userDoesNotExist (accountId : String)
  | userMultipleReturned (accountId : String)
  | assetDoesNotExist (issuerAccount : String) (code : String)
  | assetMultipleReturned (code : String)
  | valueErrorAssetTuple
deriving DecidableEq

/-- `Asset.objects.get_or_create(code=currency)` (api.py line 148), with
Django semantics: the lookup is keyed by `code` alone — no `issuer` in
the query.  The underlying `get` raises `Asset.MultipleObjectsReturned`
when several rows share the code; with exactly one match the row is
returned; with none a fresh row with only `code` set is inserted.  The
successful result is the `(object, created)` pair that `get_or_create`
returns in Python — not the bare row — paired with the updated table. -/
def assetGetOrCreate (assets : List AssetRec) (code : String) :
    Except ReceiveErr (List AssetRec × (AssetRec × Bool)) :=
  match assets.filter (fun a => a.code == code) with
  | [] =>
    let a : AssetRec := ⟨assets.length, code, "", ""⟩
    .ok (assets ++ [a], (a, true))
  | [a] => .ok (assets, (a, false))
  | _ => .error (.assetMultipleReturned code)

/-- Lines 139-148 of `_process_receive`: determine the currency and the
`issuer` string (native: `'XLM'` and `''`; otherwise the `issuer` column
of the Asset row found by `(account_id, code)` at line 145), then
resolve the Asset via `get_or_create` keyed by code alone (line 148).
Returns the issuer string together with the `get_or_create` result. -/
def resolveReceiveAsset (assets : List AssetRec) (tx : RawReceive) :
    Except ReceiveErr (String × (List AssetRec × (AssetRec × Bool))) :=
  if tx.asset_type = "native" then
    match assetGetOrCreate assets "XLM" with
    | .error e => .error e
    | .ok r => .ok ("", r)
  else
    match assets.filter (fun a =>
        a.account_id == tx.asset_issuer && a.code == tx.asset_code) with
    | [] => .error (.assetDoesNotExist tx.asset_issuer tx.asset_code)
    | [issuerRow] =>
      match assetGetOrCreate assets tx.asset_code with
      | .error e => .error e
      | .ok r => .ok (issuerRow.issuer, r)
    | _ => .error (.assetMultipleReturned tx.asset_code)

/-- `Interface._process_receive` (api.py lines 128-163).  `users` models
the `account_id` column of the `UserAccount` table; `assets` the `Asset`
table, threaded because `get_or_create` may insert.  A falsy memo
(absent or empty, Python `if memo:`) makes the function return `None`
with nothing created.  Otherwise the lookup key is the memo concatenated
with the hard-coded literal `'*rehive.com'` (line 134), resolved with
`UserAccount.objects.get`; then the asset is resolved
(`resolveReceiveAsset`), and the `ReceiveTransaction` creation at line
149 raises `ValueError` unconditionally, because it assigns the
`(object, created)` tuple from line 148 to the `asset` ForeignKey.  So
no reached record is ever materialized; the only non-raising outcomes
are the falsy-memo skips.  (The `Except` model discards Asset-table
inserts made before a raise — in Django the `get_or_create` insert
would persist — but no theorem below inspects the table after an
error.) -/
def process_receive (users : List String) (assets : List AssetRec)
    (tx : RawReceive) : Except ReceiveErr (List AssetRec) :=
  match tx.memo with
  | none => .ok assets
  | some m =>
    if m = "" then .ok assets
    else
      let account_id := m ++ "*rehive.com"
      match users.filter (fun uid => uid == account_id) with
      | [] => .error (.userDoesNotExist account_id)
      | [_] =>
        match resolveReceiveAsset assets tx with
        | .error e => .error e
        | .ok _ => .error .valueErrorAssetTuple
      | _ => .error (.userMultipleReturned account_id)

/-- `Interface.process_receives` (api.py lines 174-180): iterates
`_process_receive` over the batch with no exception handling, so the
first raised exception propagates and the remaining records are never
processed. -/
def process_receives (users : List String) (assets : List AssetRec) :
    List RawReceive → Except ReceiveErr (List AssetRec)
  | [] => .ok assets
  | tx :: rest =>
    match process_receive users assets tx with
    | .error e => .error e
    | .ok assets1 => process_receives users assets1 rest

/-- `Interface.new_account_id` (api.py lines 251-255):
`metadata['username'] + '*' + settings.STELLAR_WALLET_DOMAIN`. -/
def new_account_id (username : String) (walletDomain : String) : String :=
  username ++ "*" ++ walletDomain

/-! ### Concrete inputs used by the evaluation theorems below -/

/-- A syntactically valid raw network address: 56 characters, no `*`. -/
def gaddr : String := "GAAAAAAAAAAAAAAAAAAAAAAAAAAAAAAAAAAAAAAAAAAAAAAAAAAAAAAA"

def envC2 : SendEnv :=
  ⟨"HOT", fun _ => GetOutcome.ok, fun _ => ⟨"", "text", ""⟩,
    SubmitOutcome.failure "tx_bad_seq"⟩

def txC2 : SendTx := ⟨gaddr, 5, "XLM", ""⟩

/-- Environment in which the custodial account `HOT` exists on the
network but every other account (in particular the destination `gaddr`)
answers 404. -/
def envC3 : SendEnv :=
  ⟨"HOT",
    fun a => if a = "HOT" then GetOutcome.ok else GetOutcome.apiError 404,
    fun _ => ⟨"", "text", ""⟩, SubmitOutcome.ok⟩

def txC3 : SendTx := ⟨gaddr, 7, "XLM", ""⟩

/-- Environment whose federation lookup resolves to memo type `none`. -/
def envC6none : SendEnv :=
  ⟨"HOT", fun _ => GetOutcome.ok, fun _ => ⟨"GFED", "none", "bob"⟩,
    SubmitOutcome.ok⟩

/-- Environment whose federation lookup resolves to memo type `text`. -/
def envC6text : SendEnv :=
  ⟨"HOT", fun _ => GetOutcome.ok, fun _ => ⟨"GFED", "text", "bob"⟩,
    SubmitOutcome.ok⟩

def txC6 : SendTx := ⟨"bob*rehive.com", 5, "XLM", ""⟩

/-- Environment in which every account-existence check raises
`APIException` with status 500. -/
def envC9 : SendEnv :=
  ⟨"HOT", fun _ => GetOutcome.apiError 500, fun _ => ⟨"", "text", ""⟩,
    SubmitOutcome.ok⟩

def txC9 : SendTx := ⟨gaddr, 5, "XLM", ""⟩

/-- Asset table holding one provisioned row whose code is `XLM` but
whose issuer is an anchor account — an anchor-issued token that shares
its code with the native asset.  (Rows with `account_id` set must be
provisioned out of band: the only in-code insert, `get_or_create(code)`,
never sets `account_id`, yet line 145 requires it.) -/
def assetsC5 : List AssetRec :=
  [⟨0, "XLM", "AnchorIssuer", "GANCHOR"⟩]

/-- A native receive: its resolution pair is code `XLM` with no issuer. -/
def recC5a : RawReceive := ⟨some "bob", 5, "native", "", "", "h1"⟩

/-- An anchor-issued receive with the same code `XLM` but issuer
`GANCHOR`. -/
def recC5b : RawReceive := ⟨some "bob", 6, "credit_alphanum4", "XLM", "GANCHOR", "h2"⟩

/-- A native-asset raw receive record carrying memo `m`. -/
def mkNativeReceive (m : String) : RawReceive := ⟨some m, 5, "native", "", "", "h0"⟩

/-- Decidable equality for `Except`, so that the evaluation theorems
below can be checked by `decide`. -/
instance {ε α : Type} [DecidableEq ε] [DecidableEq α] : DecidableEq (Except ε α) :=
  fun x y =>
    match x, y with
    | .ok a, .ok b =>
      if h : a = b then .isTrue (by rw [h])
      else .isFalse (fun hh => h (Except.ok.inj hh))
    | .error a, .error b =>
      if h : a = b then .isTrue (by rw [h])
      else .isFalse (fun hh => h (Except.error.inj hh))
    | .ok _, .error _ => .isFalse (fun hh => Except.noConfusion hh)
    | .error _, .ok _ => .isFalse (fun hh => Except.noConfusion hh)

/-! ### Helper lemmas -/

theorem pySplit_ne_nil (sep : Char) (l : List Char) : pySplit sep l ≠ [] := by
  cases l with
  | nil => simp [pySplit]
  | cons c rest =>
    simp only [pySplit]
    split
    · simp
    · split <;> simp

theorem pySplit_length (sep : Char) (l : List Char) :
    (pySplit sep l).length = l.count sep + 1 := by
  induction l with
  | nil => simp [pySplit]
  | cons c rest ih =>
    simp only [pySplit]
    split
    · next h =>
      subst h
      simp [List.count_cons, ih]
    · next h =>
      cases hr : pySplit sep rest with
      | nil => exact absurd hr (pySplit_ne_nil sep rest)
      | cons g gs =>
        rw [hr] at ih
        simp only [List.length_cons] at ih ⊢
        simp [List.count_cons, h]
        omega

theorem pySplit_headD_append (sep : Char) (s d : List Char) (hs : sep ∉ s) :
    (pySplit sep (s ++ sep :: d)).headD [] = s := by
  induction s with
  | nil => simp [pySplit]
  | cons c s2 ih =>
    have h1 : ¬(c = sep) := fun h => hs (by simp [h])
    have h2 : sep ∉ s2 := fun h => hs (List.mem_cons_of_mem _ h)
    simp only [List.cons_append, pySplit, if_neg h1]
    cases hr : pySplit sep (s2 ++ sep :: d) with
    | nil => exact absurd hr (pySplit_ne_nil _ _)
    | cons g gs =>
      have hg := ih h2
      rw [hr] at hg
      simp only [List.headD_cons] at hg ⊢
      simp [hg]

theorem string_append_assoc (a b c : String) : a ++ b ++ c = a ++ (b ++ c) := by
  apply String.ext
  simp [String.data_append]

theorem string_append_cancel_left (a b c : String) (h : a ++ b = a ++ c) : b = c := by
  apply String.ext
  have hd := congrArg String.data h
  simp only [String.data_append] at hd
  exact List.append_cancel_left hd

/-- The user-lookup key built by `_process_receive` for memo `u` equals
the account id derived by `new_account_id` for username `u` and wallet
domain `d` exactly when `d` is the literal domain hard-coded at api.py
line 134. -/
theorem key_eq_iff (u d : String) :
    (new_account_id u d = u ++ "*rehive.com") ↔ d = "rehive.com" := by
  have hsplit : ("*rehive.com" : String) = "*" ++ "rehive.com" := by decide
  unfold new_account_id
  rw [hsplit, ← string_append_assoc]
  constructor
  · intro h
    exact string_append_cancel_left (u ++ "*") d "rehive.com" h
  · intro h
    rw [h]

/-- Shape of `send` on the native-asset path once recipient resolution
has succeeded: the operations are `xlmOps` and the submit handler never
raises. -/
theorem send_xlm_eq (env : SendEnv) (tx : SendTx) (a : String) (ms : List Memo)
    (hres : resolveRecipient env tx.recipient = Except.ok (a, ms))
    (hx : tx.assetCode = "XLM") :
    send env tx =
      (match env.submitOutcome with
       | SubmitOutcome.ok => Except.ok ⟨ms, xlmOps env a tx.amount, true, none⟩
       | SubmitOutcome.failure p =>
          Except.ok ⟨ms, xlmOps env a tx.amount, false, some p⟩) := by
  unfold send
  rw [hres]
  simp [hx]

/-- Recipient resolution for a federated recipient reduces to the
memo-type dispatch over the federation response. -/
theorem resolveRecipient_federated (env : SendEnv) (recipient : String)
    (hraw : is_valid_address recipient = false) :
    resolveRecipient env recipient =
      (if (env.federation recipient).memo_type = "text" then
        Except.ok ((env.federation recipient).account_id,
          [Memo.text (env.federation recipient).memo])
      else if (env.federation recipient).memo_type = "id" then
        Except.ok ((env.federation recipient).account_id,
          [Memo.idMemo (env.federation recipient).memo])
      else if (env.federation recipient).memo_type = "hash" then
        Except.ok ((env.federation recipient).account_id,
          [Memo.hash (env.federation recipient).memo])
      else Except.error SendErr.unsupportedMemoType) := by
  unfold resolveRecipient
  rw [hraw]
  simp

/-! ### Claim theorems -/

/-- Claim C1 (refuting evaluation): with a cursor present, a batch of two
consecutive records both addressed to an account other than the
custodial `HOT` — i.e. both outbound — is filtered by `_get_receives`
into a singleton still containing the second outbound record: the
`pop`-during-iteration loop skips the element shifted into the popped
slot, so not every outbound entry is removed. -/
theorem get_receives_keeps_outbound :
    get_receives "HOT" (some 1)
        [⟨some "X", some "HOT"⟩, ⟨some "Y", some "HOT"⟩] =
      [⟨some "Y", some "HOT"⟩] ∧
    (some "Y" ≠ some "HOT") := by
  decide

/-- Claim C2 (refuting evaluation): when signing/submitting fails with a
diagnostic payload, `Interface.send` returns normally — the exception is
caught, its payload printed, and no error of any kind reaches the
caller. -/
theorem send_swallows_submission_failure :
    send envC2 txC2 =
      Except.ok ⟨[], [Op.payment gaddr 5 "XLM" none], false, some "tx_bad_seq"⟩ := by
  decide

/-- Claim C3 (refuting evaluation): in `envC3` the destination `gaddr`
does not exist on the network (its existence check yields 404) while the
custodial account `HOT` does; `Interface.send` nevertheless appends a
payment operation, not a create-account operation, because the existence
check queries the custodial account rather than the destination. -/
theorem send_checks_custodial_not_destination :
    envC3.getOutcome gaddr = GetOutcome.apiError 404 ∧
    send envC3 txC3 =
      Except.ok ⟨[], [Op.payment gaddr 7 "XLM" none], true, none⟩ := by
  decide

/-- Claim C4 (refuting evaluation): a batch whose first record carries a
memo matching no `UserAccount` makes `process_receives` raise
`UserAccount.DoesNotExist` out of the loop, so the second record — whose
memo does match — is never processed: the batch aborts instead of
skipping the record. -/
theorem process_receives_aborts_on_unknown_user :
    process_receives ["bob*rehive.com"] []
        [⟨some "alice", 5, "native", "", "", "h1"⟩,
         ⟨some "bob", 6, "native", "", "", "h2"⟩] =
      Except.error (ReceiveErr.userDoesNotExist "alice*rehive.com") := by
  decide

/-- Claim C5 (refuting evaluation): with a single provisioned row of
code `XLM` issued by `AnchorIssuer`, the line-148 asset resolution —
`get_or_create(code=currency)`, keyed by code alone — yields that same
row both for a native receive (pair `XLM` with no issuer) and for an
anchor-issued receive (pair `XLM` with issuer `GANCHOR`): two
resolutions of the same code with different issuers return the same
`Asset` record, violating the (code, issuer) keying.  Both records then
reach the `ReceiveTransaction` creation, which raises the ForeignKey
`ValueError`, so the materialization itself never completes either. -/
theorem asset_resolution_ignores_issuer :
    resolveReceiveAsset assetsC5 recC5a =
      Except.ok ("", (assetsC5, (⟨0, "XLM", "AnchorIssuer", "GANCHOR"⟩, false))) ∧
    resolveReceiveAsset assetsC5 recC5b =
      Except.ok ("AnchorIssuer", (assetsC5, (⟨0, "XLM", "AnchorIssuer", "GANCHOR"⟩, false))) ∧
    recC5a.asset_issuer ≠ recC5b.asset_issuer ∧
    process_receive ["bob*rehive.com"] assetsC5 recC5a =
      Except.error ReceiveErr.valueErrorAssetTuple ∧
    process_receive ["bob*rehive.com"] assetsC5 recC5b =
      Except.error ReceiveErr.valueErrorAssetTuple := by
  decide

/-- Claim C6 (counterexample): a federation resolution with memo type
`none` is not accepted by `Interface.send`; it raises
`NotImplementedAPIError` (`unsupportedMemoType`) instead of attaching no
memo, contradicting the claim that `none` is among the accepted values. -/
theorem send_rejects_none_memo_type :
    send envC6none txC6 = Except.error SendErr.unsupportedMemoType := by
  decide

/-- Claim C7 (counterexample): an address with two `*` separators does
not fail with the typed `InvalidAddress` error; the `'*' not in address`
guard passes and the two-variable tuple unpacking of the three-part
split raises a plain `ValueError`. -/
theorem get_federation_details_two_stars_not_invalid :
    get_federation_details "a*b*c" ≠ Except.error FedErr.invalidAddress ∧
    get_federation_details "a*b*c" = Except.error FedErr.valueError := by
  decide

/-- Claim C6 (amended): for every federated-address send, the resolved
memo types `text`, `id` and `hash` are accepted — the corresponding memo
is attached to the builder as the single memo — and every other resolved
value, including `none`, makes `Interface.send` raise the
unsupported-memo-type error before any operation is built.  For a
native-asset send the attached memo is the single memo of the resulting
transaction; an issued-asset send attaches the memo and then raises
`AttributeError` at `tx.currency` (api.py line 209), so no transaction
results there regardless of memo type. -/
theorem send_memo_type_handling (env : SendEnv) (tx : SendTx)
    (hraw : is_valid_address tx.recipient = false) :
    ((env.federation tx.recipient).memo_type = "text" →
      resolveRecipient env tx.recipient =
        Except.ok ((env.federation tx.recipient).account_id,
          [Memo.text (env.federation tx.recipient).memo]) ∧
      (tx.assetCode = "XLM" → ∃ r, send env tx = Except.ok r ∧
        r.memos = [Memo.text (env.federation tx.recipient).memo]) ∧
      (tx.assetCode ≠ "XLM" →
        send env tx = Except.error SendErr.attributeError)) ∧
    ((env.federation tx.recipient).memo_type = "id" →
      resolveRecipient env tx.recipient =
        Except.ok ((env.federation tx.recipient).account_id,
          [Memo.idMemo (env.federation tx.recipient).memo]) ∧
      (tx.assetCode = "XLM" → ∃ r, send env tx = Except.ok r ∧
        r.memos = [Memo.idMemo (env.federation tx.recipient).memo]) ∧
      (tx.assetCode ≠ "XLM" →
        send env tx = Except.error SendErr.attributeError)) ∧
    ((env.federation tx.recipient).memo_type = "hash" →
      resolveRecipient env tx.recipient =
        Except.ok ((env.federation tx.recipient).account_id,
          [Memo.hash (env.federation tx.recipient).memo]) ∧
      (tx.assetCode = "XLM" → ∃ r, send env tx = Except.ok r ∧
        r.memos = [Memo.hash (env.federation tx.recipient).memo]) ∧
      (tx.assetCode ≠ "XLM" →
        send env tx = Except.error SendErr.attributeError)) ∧
    ((env.federation tx.recipient).memo_type ≠ "text" →
      (env.federation tx.recipient).memo_type ≠ "id" →
      (env.federation tx.recipient).memo_type ≠ "hash" →
      send env tx = Except.error SendErr.unsupportedMemoType) := by
  have hfed := resolveRecipient_federated env tx.recipient hraw
  refine ⟨?_, ?_, ?_, ?_⟩
  · intro h
    rw [h] at hfed
    simp only [if_pos rfl] at hfed
    refine ⟨hfed, fun hx => ?_, fun hnx => ?_⟩
    · have hs := send_xlm_eq env tx _ _ hfed hx
      cases hsub : env.submitOutcome with
      | ok => rw [hsub] at hs; exact ⟨_, hs, rfl⟩
      | failure p => rw [hsub] at hs; exact ⟨_, hs, rfl⟩
    · unfold send
      rw [hfed]
      simp [hnx]
  · intro h
    rw [h] at hfed
    simp only [if_pos rfl] at hfed
    have hne : ("id" : String) ≠ "text" := by decide
    rw [if_neg hne] at hfed
    refine ⟨hfed, fun hx => ?_, fun hnx => ?_⟩
    · have hs := send_xlm_eq env tx _ _ hfed hx
      cases hsub : env.submitOutcome with
      | ok => rw [hsub] at hs; exact ⟨_, hs, rfl⟩
      | failure p => rw [hsub] at hs; exact ⟨_, hs, rfl⟩
    · unfold send
      rw [hfed]
      simp [hnx]
  · intro h
    rw [h] at hfed
    have hne1 : ("hash" : String) ≠ "text" := by decide
    have hne2 : ("hash" : String) ≠ "id" := by decide
    rw [if_neg hne1, if_neg hne2, if_pos rfl] at hfed
    refine ⟨hfed, fun hx => ?_, fun hnx => ?_⟩
    · have hs := send_xlm_eq env tx _ _ hfed hx
      cases hsub : env.submitOutcome with
      | ok => rw [hsub] at hs; exact ⟨_, hs, rfl⟩
      | failure p => rw [hsub] at hs; exact ⟨_, hs, rfl⟩
    · unfold send
      rw [hfed]
      simp [hnx]
  · intro h1 h2 h3
    rw [if_neg h1, if_neg h2, if_neg h3] at hfed
    unfold send
    rw [hfed]

/-- Witness for the amended claim C6 at a concrete input: a federated
recipient resolving to memo type `text` with memo `bob`, on a
native-asset send, yields a transaction whose single attached memo is
that text memo. -/
theorem send_memo_type_handling_witness :
    ∃ r, send envC6text txC6 = Except.ok r ∧ r.memos = [Memo.text "bob"] :=
  ((send_memo_type_handling envC6text txC6 (by decide)).1 (by decide)).2.1 (by decide)

/-- Claim C7 (amended): `get_federation_details` fails with the typed
`InvalidAddress` error exactly when the address contains no `*`
separator; with exactly one `*` it proceeds to the descriptor fetch with
the two parts; with two or more `*` it fails, but with a plain
unpacking `ValueError`, not `InvalidAddress`. -/
theorem get_federation_details_star_count (address : String) :
    (get_federation_details address = Except.error FedErr.invalidAddress ↔
      address.data.count '*' = 0) ∧
    ((∃ u d, get_federation_details address = Except.ok (u, d)) ↔
      address.data.count '*' = 1) ∧
    (get_federation_details address = Except.error FedErr.valueError ↔
      2 ≤ address.data.count '*') := by
  by_cases h0 : address.data.count '*' = 0
  · have hm : '*' ∉ address.data := by
      intro hmem
      have := List.count_pos_iff.mpr hmem
      omega
    have hc : address.data.contains '*' = false := by simpa using hm
    have hv : get_federation_details address = Except.error FedErr.invalidAddress := by
      unfold get_federation_details
      rw [if_pos hc]
    refine ⟨?_, ?_, ?_⟩
    · simp [hv, h0]
    · simp [hv]
      omega
    · simp [hv]
      omega
  · have hm : '*' ∈ address.data := by
      rw [← List.count_pos_iff]
      omega
    have hc : address.data.contains '*' = true := by simpa using hm
    have hlen := pySplit_length '*' address.data
    by_cases h1 : address.data.count '*' = 1
    · rcases hp : pySplit '*' address.data with _ | ⟨u, rest⟩
      · exact absurd hp (pySplit_ne_nil _ _)
      · rcases rest with _ | ⟨d, rest2⟩
        · rw [hp, h1] at hlen
          simp at hlen
        · rcases rest2 with _ | ⟨e, rest3⟩
          · have hv : get_federation_details address =
                Except.ok (String.mk u, String.mk d) := by
              unfold get_federation_details
              rw [if_neg (by simp [hm]), hp]
            refine ⟨?_, ?_, ?_⟩
            · simp [hv]
              omega
            · simp [hv, h1]
            · simp [hv]
              omega
          · rw [hp, h1] at hlen
            simp at hlen
    · have h2 : 2 ≤ address.data.count '*' := by omega
      rcases hp : pySplit '*' address.data with _ | ⟨u, rest⟩
      · exact absurd hp (pySplit_ne_nil _ _)
      · rcases rest with _ | ⟨d, rest2⟩
        · rw [hp] at hlen
          simp at hlen
          omega
        · rcases rest2 with _ | ⟨e, rest3⟩
          · rw [hp] at hlen
            simp at hlen
            omega
          · have hv : get_federation_details address = Except.error FedErr.valueError := by
              unfold get_federation_details
              rw [if_neg (by simp [hm]), hp]
            refine ⟨?_, ?_, ?_⟩
            · simp [hv]
              omega
            · simp [hv]
              omega
            · simp [hv, h2]

/-- Claim C8: a federation-server `name` lookup with a non-empty query
string `q` succeeds exactly when a `UserAccount` row has `account_id`
equal to `q`; on success the response carries the configured receive
address as `account_id`, memo type `text`, and as memo the part of `q`
before the `*` (for `q` of shape `shortname*domain` with a star-free
shortname, exactly the shortname); with no matching row it fails with
the client-visible validation error, not a generic one. -/
theorem stellarFederationGet_name_lookup (ids : List String) (recv q : String)
    (hq : q ≠ "") :
    ((∃ m, stellarFederationGet ids recv (some "name") (some q) =
        FedResponse.ok q recv "text" m) ↔ q ∈ ids) ∧
    (q ∈ ids → stellarFederationGet ids recv (some "name") (some q) =
        FedResponse.ok q recv "text" (beforeStar q)) ∧
    (q ∉ ids → stellarFederationGet ids recv (some "name") (some q) =
        FedResponse.validationError "Stellar address does not exist.") ∧
    (∀ s d : List Char, '*' ∉ s →
        beforeStar (String.mk (s ++ '*' :: d)) = String.mk s) := by
  refine ⟨?_, ?_, ?_, ?_⟩
  · constructor
    · rintro ⟨m, hm⟩
      by_cases hin : q ∈ ids
      · exact hin
      · simp [stellarFederationGet, hq, hin] at hm
    · intro hin
      exact ⟨beforeStar q, by simp [stellarFederationGet, hq, hin]⟩
  · intro hin
    simp [stellarFederationGet, hq, hin]
  · intro hin
    simp [stellarFederationGet, hq, hin]
  · intro s d hs
    unfold beforeStar
    have : (String.mk (s ++ '*' :: d)).data = s ++ '*' :: d := rfl
    rw [this, pySplit_headD_append '*' s d hs]

/-- Witness for claim C8 at a concrete input: with the single known user
account id `alice*rehive.com`, the lookup for that exact query returns
the configured receive address, memo type `text`, and the shortname
before the `*` as memo. -/
theorem stellarFederationGet_name_lookup_witness :
    stellarFederationGet ["alice*rehive.com"] "GRECEIVE" (some "name")
        (some "alice*rehive.com") =
      FedResponse.ok "alice*rehive.com" "GRECEIVE" "text"
        (beforeStar "alice*rehive.com") :=
  (stellarFederationGet_name_lookup ["alice*rehive.com"] "GRECEIVE"
    "alice*rehive.com" (by decide)).2.1 (by decide)

/-- Claim C9: on a native-asset send whose recipient resolution
succeeded, if the account-existence check raises an `APIException` whose
status is not 404, `Interface.send` neither re-raises the exception nor
appends any operation: the exception is caught, the 404 branch is not
taken, and the call proceeds to sign and submit a transaction with an
empty operation list (returning normally or swallowing the submission
failure as usual). -/
theorem send_non404_apiError_no_op (env : SendEnv) (tx : SendTx)
    (a : String) (ms : List Memo) (s : Nat)
    (hres : resolveRecipient env tx.recipient = Except.ok (a, ms))
    (hx : tx.assetCode = "XLM")
    (hget : env.getOutcome env.selfAccountId = GetOutcome.apiError s)
    (hs : s ≠ 404) :
    ∃ r, send env tx = Except.ok r ∧ r.ops = [] ∧ r.memos = ms ∧
      (env.submitOutcome = SubmitOutcome.ok → r.submitted = true) ∧
      (∀ p, env.submitOutcome = SubmitOutcome.failure p →
        r.submitted = false ∧ r.printedPayload = some p) := by
  have hops : xlmOps env a tx.amount = [] := by
    unfold xlmOps
    rw [hget]
    simp [hs]
  have hsend := send_xlm_eq env tx a ms hres hx
  rw [hops] at hsend
  cases hsub : env.submitOutcome with
  | ok =>
    rw [hsub] at hsend
    exact ⟨_, hsend, rfl, rfl, fun _ => rfl,
      fun p hp => SubmitOutcome.noConfusion hp⟩
  | failure p =>
    rw [hsub] at hsend
    refine ⟨_, hsend, rfl, rfl, fun h => SubmitOutcome.noConfusion h,
      fun p2 hp2 => ?_⟩
    injection hp2 with h3
    subst h3
    exact ⟨rfl, rfl⟩

/-- Witness for claim C9 at a concrete input: every existence check in
`envC9` answers status 500, and the send returns normally with no
operation appended. -/
theorem send_non404_apiError_no_op_witness :
    ∃ r, send envC9 txC9 = Except.ok r ∧ r.ops = [] ∧ r.memos = [] ∧
      (envC9.submitOutcome = SubmitOutcome.ok → r.submitted = true) ∧
      (∀ p, envC9.submitOutcome = SubmitOutcome.failure p →
        r.submitted = false ∧ r.printedPayload = some p) :=
  send_non404_apiError_no_op envC9 txC9 gaddr [] 500 (by decide) (by decide)
    (by decide) (by decide)

/-- Claim C10 (counterexample): even with the configured domain equal to
`rehive.com` — exactly when the user-lookup key matches the derived
identity — the inbound record is not materialized for the identity: the
`ReceiveTransaction` creation raises the ForeignKey `ValueError` (the
`get_or_create` tuple assigned to `asset`, api.py lines 148-149), so the
claimed attribution does not complete even in the matching-domain case. -/
theorem receive_attribution_not_materialized :
    process_receive [new_account_id "alice" "rehive.com"] []
        (mkNativeReceive "alice") =
      Except.error ReceiveErr.valueErrorAssetTuple := by
  decide

/-- Claim C10 (amended): receive materialization looks a user up under
the key `memo + '*rehive.com'` (hard-coded literal), while
`new_account_id` derives identifiers as `username + '*' + wallet
domain`; with a store holding exactly the identity derived for username
`u` and configured domain `d`, the lookup resolves a record carrying
memo `u` to that identity — materialization proceeds past the user
lookup and fails only later, at the unconditional ForeignKey
`ValueError` of the creation step — if and only if `d` is `rehive.com`;
with any other domain the lookup itself raises `DoesNotExist`.  No
record is ever fully materialized either way. -/
theorem receive_attribution_iff_domain (u d : String) (hu : u ≠ "") :
    (process_receive [new_account_id u d] [] (mkNativeReceive u) =
        Except.error (ReceiveErr.userDoesNotExist (u ++ "*rehive.com")) ↔
      ¬ d = "rehive.com") ∧
    (process_receive [new_account_id u d] [] (mkNativeReceive u) =
        Except.error ReceiveErr.valueErrorAssetTuple ↔ d = "rehive.com") := by
  have hk := key_eq_iff u d
  by_cases hc : new_account_id u d = u ++ "*rehive.com"
  · have hd : d = "rehive.com" := hk.mp hc
    subst hd
    have hfil : [new_account_id u "rehive.com"].filter
        (fun uid => uid == u ++ "*rehive.com") = [new_account_id u "rehive.com"] := by
      simp [hc]
    simp [process_receive, mkNativeReceive, hu, hfil, resolveReceiveAsset,
      assetGetOrCreate]
  · have hd : ¬ d = "rehive.com" := fun h => hc (hk.mpr h)
    have hfil : [new_account_id u d].filter (fun uid => uid == u ++ "*rehive.com") =
        [] := by
      simp [hc]
    simp [process_receive, mkNativeReceive, hu, hfil, hd]

/-- Witness for the amended claim C10 at a concrete input: with the
configured wallet domain `example.com`, the record with memo `bob` is
not resolved to the identity derived for username `bob` — the user
lookup raises `DoesNotExist` for the hard-coded `rehive.com` key. -/
theorem receive_attribution_iff_domain_witness :
    process_receive [new_account_id "bob" "example.com"] []
        (mkNativeReceive "bob") =
      Except.error (ReceiveErr.userDoesNotExist ("bob" ++ "*rehive.com")) :=
  (receive_attribution_iff_domain "bob" "example.com" (by decide)).1.mpr (by decide)
